import Mathlib

/-!
Verification development for the NewsInsight.ai repository.

The frontend sources ( src/src/App.js , src/src/components/ArticleCard.js ,
and the HomePage code listed in README-REACT.md ) are embedded as executable
Lean definitions.  The backend engine (ContentFilter, IngestionPipeline,
StreamingSearchController) is not part of the frontend sources; its
definitions below are modelled from the specification and are marked as such
in their doc comments.
-/

namespace NewsInsight

/-- Model of the character-list test used to build the substring test of
JavaScript String.prototype.includes: does the second list start the first? -/
def charsStart : List Char → List Char → Bool
  | _, [] => true
  | [], _ :: _ => false
  | h :: t, a :: b => h == a && charsStart t b

/-- Model of JavaScript String.prototype.includes on exploded strings:
the second list occurs contiguously somewhere inside the first. -/
def charsInclude : List Char → List Char → Bool
  | [], sub => sub.isEmpty
  | h :: t, sub => charsStart (h :: t) sub || charsInclude t sub

/-- JavaScript hay.includes(sub): case-sensitive contiguous substring test. -/
def strIncludes (hay sub : String) : Bool :=
  charsInclude hay.toList sub.toList

/-- JavaScript s.toLowerCase(), modelled as per-character lowering (the
sources only lowercase ASCII data). -/
def strToLower (s : String) : String :=
  String.mk (s.toList.map Char.toLower)

/-- Strip leading and trailing whitespace from a character list. -/
def trimChars (l : List Char) : List Char :=
  ((l.dropWhile Char.isWhitespace).reverse.dropWhile Char.isWhitespace).reverse

/-- JavaScript s.trim(). -/
def strTrim (s : String) : String :=
  String.mk (trimChars s.toList)

/-- JavaScript s.startsWith(pre), used to model the mock-id marker test. -/
def strStarts (s pre : String) : Bool :=
  charsStart s.toList pre.toList

/-- JavaScript a || b where a is an optional string and the empty string
counts as falsy (undefined maps to none). -/
def jsOrString : Option String → Option String → Option String
  | some v, b => if v = "" then b else some v
  | none, b => b

/-! ## Backend core, modelled from the spec -/

/-- Modelled from the spec: configuration thresholds of ContentFilter
(section 4.1); the backend implementation is absent from the frontend
sources. -/
structure FilterConfig where
  minWords : Nat
  maxWords : Nat
  maxAgeDays : Nat
deriving DecidableEq

/-- Modelled from the spec: the kind tag of a BlacklistEntry (section 3). -/
inductive BlacklistKind
  | source
  | keyword
deriving DecidableEq

/-- Modelled from the spec: a BlacklistEntry (section 3). -/
structure BlacklistEntry where
  kind : BlacklistKind
  value : String
  reason : String
deriving DecidableEq

/-- Modelled from the spec: a RawArticle as produced by ArticleSource
(section 3); publishedAt is none when the source-supplied timestamp is
absent or unparseable. -/
structure RawArticle where
  headline : String
  body : String
  sourceName : String
  url : String
  publishedAt : Option Int
  author : Option String := none
deriving DecidableEq

/-- Modelled from the spec: the decision of ContentFilter (section 4.1). -/
inductive FilterDecision
  | accept
  | reject (reason : String)
  | needsReview (reason : String)
deriving DecidableEq

/-- Count the whitespace-separated words of a character list; the flag
records whether the previous character was inside a word. -/
def countWordsAux : Bool → List Char → Nat
  | _, [] => 0
  | inWord, c :: t =>
    if c.isWhitespace then countWordsAux false t
    else (if inWord then 0 else 1) + countWordsAux true t

/-- Word count of a body: number of whitespace-separated non-empty
fragments. -/
def wordCount (s : String) : Nat :=
  countWordsAux false s.toList

/-- Seconds in a day, used by the age rule. -/
def secondsPerDay : Int := 86400

/-- Modelled from the spec: ContentFilter (section 4.1), an ordered
short-circuiting rule pipeline.  The AI legitimacy result is passed in as
an optional boolean (none models Reasoner failure or an ambiguous answer);
times are epoch seconds. -/
def contentFilter (cfg : FilterConfig) (bl : List BlacklistEntry) (now : Int)
    (ai : Option Bool) (a : RawArticle) : FilterDecision :=
  let wc := wordCount a.body
  if wc < cfg.minWords ∨ cfg.maxWords < wc then .reject "length"
  else
    match a.publishedAt with
    | none => .reject "age"
    | some t =>
      if (cfg.maxAgeDays : Int) * secondsPerDay < now - t then .reject "age"
      else if bl.any (fun e =>
          e.kind == .source && strToLower e.value == strToLower a.sourceName) then
        .reject "blacklisted_source"
      else if bl.any (fun e =>
          e.kind == .keyword &&
            (strIncludes (strToLower a.headline) (strToLower e.value) ||
             strIncludes (strToLower a.body) (strToLower e.value))) then
        .reject "blacklisted_keyword"
      else
        match ai with
        | none => .needsReview "ai_uncertain"
        | some true => .accept
        | some false => .reject "ai_illegitimate"

/-- Modelled from the spec: the persisted Article entity (section 3). -/
structure SArticle where
  id : String
  headline : String
  summary : String
  source : String
  url : String
  publishedAt : Int
  sentiment : String
  emotions : List (String × String)
  entities : List String
  unenriched : Bool
deriving DecidableEq

/-- Modelled from the spec: the AI-derived fields produced by one
successful Enricher run (section 4.2). -/
structure Enrichment where
  summary : String
  sentiment : String
  emotions : List (String × String)
  entities : List String
deriving DecidableEq

/-- Modelled from the spec: sentiment bucketing of Reasoner output
(section 4.2): any label outside the 5-value enumeration maps to neutral. -/
def normalizeSentiment (s : String) : String :=
  if [ "very_positive", "positive", "neutral", "negative", "very_negative"
     ].contains s then s else "neutral"

/-- Modelled from the spec: building the persisted Article from an accepted
RawArticle (section 4.2); on Enricher failure (none) the record degrades to
a truncated-body summary, neutral sentiment, empty emotions and entities,
and the unenriched flag. -/
def mkArticle (a : RawArticle) (e : Option Enrichment) : SArticle :=
  match e with
  | some en =>
    { id := a.url, headline := a.headline, summary := en.summary
      source := a.sourceName, url := a.url
      publishedAt := a.publishedAt.getD 0
      sentiment := normalizeSentiment en.sentiment
      emotions := en.emotions, entities := en.entities, unenriched := false }
  | none =>
    { id := a.url, headline := a.headline, summary := String.mk (a.body.toList.take 200)
      source := a.sourceName, url := a.url
      publishedAt := a.publishedAt.getD 0
      sentiment := "neutral", emotions := [], entities := []
      unenriched := true }

/-- Modelled from the spec: does a stored article match a topic by
case-insensitive containment in headline or entities (section 4.3 step 1). -/
def matchesTopic (topic : String) (a : SArticle) : Bool :=
  strIncludes (strToLower a.headline) (strToLower topic) ||
    a.entities.any (fun e => strIncludes (strToLower e) (strToLower topic))

/-- Modelled from the spec: freshness of a stored article relative to the
configured maximum age (section 4.3 step 1). -/
def isFresh (cfg : FilterConfig) (now : Int) (a : SArticle) : Bool :=
  decide (now - a.publishedAt ≤ (cfg.maxAgeDays : Int) * secondsPerDay)

/-- Modelled from the spec: number of fresh stored articles matching a
topic (section 4.3 step 1). -/
def freshCount (cfg : FilterConfig) (now : Int) (store : List SArticle)
    (topic : String) : Nat :=
  (store.filter (fun a => matchesTopic topic a && isFresh cfg now a)).length

/-- Modelled from the spec: de-duplication of fetched candidates by URL,
first-seen wins (section 4.3 step 3). -/
def dedupByUrl (l : List RawArticle) : List RawArticle :=
  l.foldl (fun acc a =>
    if acc.any (fun b => b.url == a.url) then acc else acc ++ [a]) []

/-- Modelled from the spec: the outcome of one IngestionPipeline run
(section 4.3): the updated store, the newly stored count, and the number of
provider calls performed. -/
structure IngestOutcome where
  store : List SArticle
  newCount : Nat
  providerCalls : Nat
deriving DecidableEq

/-- Modelled from the spec: the IngestionPipeline (section 4.3).  Providers
are given as a list of per-provider results (none models a failed
provider); the Reasoner legitimacy check and the Enricher are passed in as
functions.  Step 1 short-circuits: with enough fresh stored results, no
provider is called. -/
def ingest (cfg : FilterConfig) (bl : List BlacklistEntry) (now : Int)
    (ai : RawArticle → Option Bool) (enrich : RawArticle → Option Enrichment)
    (store : List SArticle) (topic : String) (limit : Nat)
    (providers : List (Option (List RawArticle))) : IngestOutcome :=
  if limit ≤ freshCount cfg now store topic then ⟨store, 0, 0⟩
  else
    let fetched := providers.foldl (fun acc r => acc ++ r.getD []) []
    let deduped := dedupByUrl fetched
    let accepted := deduped.filter
      (fun a => contentFilter cfg bl now (ai a) a == .accept)
    let novel := accepted.filter
      (fun a => !(store.any (fun b => b.id == a.url)))
    let newArts := novel.map (fun a => mkArticle a (enrich a))
    ⟨store ++ newArts, newArts.length, providers.length⟩

/-- Modelled from the spec: the discrete events of the streaming search
protocol (section 4.5). -/
inductive StreamEvent
  | existing (articles : List SArticle) (count : Nat)
  | status (message : String)
  | newArticle (article : SArticle) (progress : Nat) (total : Nat)
  | complete (message : String)
  | error (message : String)
deriving DecidableEq

/-- Is the event a terminal event ( complete or error )? -/
def isTerminal : StreamEvent → Bool
  | .complete _ => true
  | .error _ => true
  | _ => false

/-- Is the event a complete event? -/
def isComplete : StreamEvent → Bool
  | .complete _ => true
  | _ => false

/-- Is the event an error event? -/
def isError : StreamEvent → Bool
  | .error _ => true
  | _ => false

/-- Is the event an existing event? -/
def isExisting : StreamEvent → Bool
  | .existing _ _ => true
  | _ => false

/-- Modelled from the spec: one streaming search run (section 4.5): the
ordered event sequence plus the number of ingestion runs triggered. -/
structure StreamRun where
  events : List StreamEvent
  ingestRuns : Nat
deriving DecidableEq

/-- Modelled from the spec: the StreamingSearchController (section 4.5).
The existing result set is emitted once, first; if it already meets the
limit the stream ends with complete and no ingestion is triggered.
Otherwise ingestion runs: on success each newly ingested article is
emitted with a progress counter followed by complete; if ingestion could
not proceed at all, error is emitted instead of complete when no cached
data exists, and complete otherwise. -/
def searchStream (existing : List SArticle) (limit : Nat)
    (ingestResult : Except String (List SArticle)) : StreamRun :=
  let ex := StreamEvent.existing existing existing.length
  if limit ≤ existing.length then
    ⟨[ex, .complete "existing data sufficient"], 0⟩
  else
    match ingestResult with
    | .ok newArts =>
      ⟨[ex] ++ (newArts.enum.map
          (fun p => StreamEvent.newArticle p.2 (p.1 + 1) newArts.length))
        ++ [.complete "ingestion complete"], 1⟩
    | .error m =>
      if existing.isEmpty then ⟨[ex, .error m], 1⟩
      else ⟨[ex, .complete m], 1⟩

/-! ## Frontend embedding ( src/src/App.js , components, README-REACT.md ) -/

/-- An entity object of a frontend article ( text plus a type tag ), as in
the mock data of src/src/App.js . -/
structure FEntity where
  text : String
  type : String
deriving DecidableEq

/-- A frontend article record as handled by src/src/App.js ; isRealData
embeds the _isRealData marker set on backend results (absent, hence
false, on mock data). -/
structure FArticle where
  id : String
  headline : String
  summary : String
  source : String
  date : String
  url : String
  overall_sentiment : Option String
  sentiment : Option String
  entities : List FEntity
  emotions : List (String × String)
  isRealData : Bool := false
deriving DecidableEq

/-- The hard-coded mock article list of getMockArticles in
src/src/App.js . -/
def mockArticles : List FArticle :=
  [ { id := "mock-1"
      headline := "AI Revolution Transforms Global Markets"
      summary := "Artificial intelligence technologies are reshaping financial markets worldwide, with new algorithms driving unprecedented trading volumes and market efficiency."
      source := "Tech Today", date := "2024-01-15T10:30:00Z"
      url := "https://example.com/ai-markets"
      overall_sentiment := some "positive", sentiment := some "positive"
      entities :=
        [ ⟨ "Artificial Intelligence", "technology" ⟩
        , ⟨ "Financial Markets", "business" ⟩
        , ⟨ "Trading", "finance" ⟩ ]
      emotions :=
        [ ( "anticipation", "high"), ( "trust", "medium"), ( "joy", "low") ] }
  , { id := "mock-2"
      headline := "Climate Summit Reaches Historic Agreement"
      summary := "World leaders have reached a groundbreaking consensus on climate action, setting ambitious targets for carbon reduction and renewable energy adoption."
      source := "Global News", date := "2024-01-14T15:45:00Z"
      url := "https://example.com/climate-summit"
      overall_sentiment := some "very_positive", sentiment := some "positive"
      entities :=
        [ ⟨ "Climate Change", "environment" ⟩
        , ⟨ "Renewable Energy", "technology" ⟩
        , ⟨ "Carbon Reduction", "policy" ⟩ ]
      emotions :=
        [ ( "anticipation", "high"), ( "trust", "high"), ( "joy", "medium") ] }
  , { id := "mock-3"
      headline := "Economic Uncertainty Grips Financial Sector"
      summary := "Rising inflation and geopolitical tensions are creating significant challenges for financial institutions, leading to increased market volatility."
      source := "Financial Times", date := "2024-01-13T09:20:00Z"
      url := "https://example.com/economic-uncertainty"
      overall_sentiment := some "negative", sentiment := some "negative"
      entities :=
        [ ⟨ "Inflation", "economics" ⟩
        , ⟨ "Financial Institutions", "business" ⟩
        , ⟨ "Market Volatility", "finance" ⟩ ]
      emotions :=
        [ ( "fear", "high"), ( "sadness", "medium"), ( "anger", "low") ] }
  , { id := "mock-4"
      headline := "Breakthrough in Quantum Computing Research"
      summary := "Scientists have achieved a major milestone in quantum computing, demonstrating error correction capabilities that bring practical quantum computers closer to reality."
      source := "Science Daily", date := "2024-01-12T14:10:00Z"
      url := "https://example.com/quantum-breakthrough"
      overall_sentiment := some "positive", sentiment := some "positive"
      entities :=
        [ ⟨ "Quantum Computing", "technology" ⟩
        , ⟨ "Error Correction", "science" ⟩
        , ⟨ "Research", "academia" ⟩ ]
      emotions :=
        [ ( "anticipation", "high"), ( "surprise", "medium"), ( "joy", "high") ] }
  , { id := "mock-5"
      headline := "Healthcare Innovation Addresses Global Challenges"
      summary := "New medical technologies and treatment approaches are showing promise in addressing some of the world\x27s most pressing health challenges."
      source := "Medical Journal", date := "2024-01-11T11:30:00Z"
      url := "https://example.com/healthcare-innovation"
      overall_sentiment := some "positive", sentiment := some "positive"
      entities :=
        [ ⟨ "Healthcare", "medicine" ⟩
        , ⟨ "Medical Technology", "technology" ⟩
        , ⟨ "Treatment", "medicine" ⟩ ]
      emotions :=
        [ ( "trust", "high"), ( "anticipation", "medium"), ( "joy", "medium") ] }
  , { id := "mock-6"
      headline := "Political Tensions Rise Over Trade Policies"
      summary := "International trade negotiations have reached a critical juncture as nations struggle to balance economic interests with diplomatic relationships."
      source := "Political Review", date := "2024-01-10T16:45:00Z"
      url := "https://example.com/trade-tensions"
      overall_sentiment := some "neutral", sentiment := some "neutral"
      entities :=
        [ ⟨ "Trade Policy", "politics" ⟩
        , ⟨ "International Relations", "politics" ⟩
        , ⟨ "Economic Interests", "economics" ⟩ ]
      emotions :=
        [ ( "anticipation", "medium"), ( "fear", "low"), ( "anger", "low") ] }
  ]

/-- The filter predicate of getMockArticles: the lowercased query occurs in
the lowercased headline, summary, or one of the entity texts. -/
def mockMatches (query : String) (a : FArticle) : Bool :=
  let searchTerm := strToLower query
  strIncludes (strToLower a.headline) searchTerm ||
    strIncludes (strToLower a.summary) searchTerm ||
    a.entities.any (fun e => strIncludes (strToLower e.text) searchTerm)

/-- getMockArticles of src/src/App.js : filter by the query when it is
truthy and has a truthy trim, then slice to the limit. -/
def getMockArticles (query : String) (limit : Nat) : List FArticle :=
  let filtered :=
    if query ≠ "" ∧ strTrim query ≠ "" then mockArticles.filter (mockMatches query)
    else mockArticles
  filtered.take limit

/-- The outcome of the backend request issued by searchArticles: a
successful JSON article list, or the error object observed in the catch
block (its code and message fields). -/
inductive BackendOutcome
  | ok (articles : List FArticle)
  | fail (code : String) (message : String)
deriving DecidableEq

/-- The mock-fallback condition of the catch block of searchArticles:
error.code is ECONNREFUSED or error.message includes Network Error. -/
def networkFallbackCond (code message : String) : Bool :=
  code == "ECONNREFUSED" || strIncludes message "Network Error"

/-- searchArticles of src/src/App.js : on success the articles are returned
with the _isRealData marker set; on failure the mock list is returned when
the backend is unreachable, and the empty list otherwise. -/
def searchArticles (outcome : BackendOutcome) (query : String) (limit : Nat) :
    List FArticle :=
  match outcome with
  | .ok arts => arts.map (fun a => { a with isRealData := true })
  | .fail code message =>
    if networkFallbackCond code message then getMockArticles query limit
    else []

/-- The HTTP query parameters of the request issued by searchArticles
( src/src/App.js line 91 ): only query and limit. -/
def searchRequestParams (query : String) (limit : Nat) : List (String × String) :=
  [ ( "query", query), ( "limit", toString limit) ]

/-- getSentimentLabel of src/src/components/ArticleCard.js : a falsy label
gives Neutral, otherwise case-insensitive substring matching against the
four non-neutral labels, checked in order. -/
def getSentimentLabel (sentiment : Option String) : String :=
  match sentiment with
  | none => "Neutral"
  | some v =>
    if v = "" then "Neutral"
    else
      let s := strToLower v
      if strIncludes s "very_positive" then "Very Positive"
      else if strIncludes s "positive" then "Positive"
      else if strIncludes s "very_negative" then "Very Negative"
      else if strIncludes s "negative" then "Negative"
      else "Neutral"

/-- getSentimentBucket of the HomePage code in README-REACT.md : a falsy
label gives neutral, otherwise substring matching on positive then
negative. -/
def getSentimentBucket (sentiment : Option String) : String :=
  match sentiment with
  | none => "neutral"
  | some v =>
    if v = "" then "neutral"
    else
      let s := strToLower v
      if strIncludes s "positive" then "positive"
      else if strIncludes s "negative" then "negative"
      else "neutral"

/-- The sentiment field the HomePage reads:
article.overall_sentiment || article.sentiment . -/
def articleSentiment (a : FArticle) : Option String :=
  jsOrString a.overall_sentiment a.sentiment

/-- filterArticlesBySentiment of the HomePage code in README-REACT.md . -/
def filterArticlesBySentiment (sentimentFilter : String)
    (articleList : List FArticle) : List FArticle :=
  if sentimentFilter = "All" then articleList
  else articleList.filter
    (fun a => getSentimentBucket (articleSentiment a) == strToLower sentimentFilter)

/-- The per-sentiment accumulator of calculateStats. -/
structure SentimentCounts where
  positive : Nat
  neutral : Nat
  negative : Nat
deriving DecidableEq

/-- One step of the reduce inside calculateStats: bump the bucket named by
getSentimentBucket (which always names one of the three fields). -/
def bumpCount (acc : SentimentCounts) (bucket : String) : SentimentCounts :=
  if bucket = "positive" then { acc with positive := acc.positive + 1 }
  else if bucket = "neutral" then { acc with neutral := acc.neutral + 1 }
  else if bucket = "negative" then { acc with negative := acc.negative + 1 }
  else acc

/-- The stats record produced by calculateStats. -/
structure Stats where
  total : Nat
  positive : Nat
  neutral : Nat
  negative : Nat
deriving DecidableEq

/-- calculateStats of the HomePage code in README-REACT.md : reduce the
sentiment-filtered article list into per-bucket counts, with total the
filtered length. -/
def calculateStats (sentimentFilter : String) (articles : List FArticle) :
    Stats :=
  let filtered := filterArticlesBySentiment sentimentFilter articles
  let counts := filtered.foldl
    (fun acc a => bumpCount acc (getSentimentBucket (articleSentiment a)))
    ⟨0, 0, 0⟩
  ⟨filtered.length, counts.positive, counts.neutral, counts.negative⟩

/-- The HomePage state relevant to sentiment filtering; fetchCount counts
backend requests issued so far. -/
structure HomeState where
  articles : List FArticle
  sentimentFilter : String
  searchTerm : String
  articleLimit : Nat
  fetchCount : Nat
deriving DecidableEq

/-- handleSentimentFilterChange of the HomePage code in README-REACT.md :
it only stores the new filter value; no request is issued and the loaded
articles are untouched. -/
def handleSentimentFilterChange (st : HomeState) (filter : String) :
    HomeState :=
  { st with sentimentFilter := filter }

/-- The request key loadArticles would issue from a state: the search term
and the article limit (the sentiment filter never enters it). -/
def loadArticlesRequest (st : HomeState) : String × Nat :=
  (st.searchTerm, st.articleLimit)

/-- The HomePage state mutated by the loadArticlesStream callback in
README-REACT.md . -/
structure ConsumerState where
  articles : List SArticle
  loading : Bool
  streamStatus : String
deriving DecidableEq

/-- The switch statement of the loadArticlesStream callback in
README-REACT.md , as one state-update step per received event. -/
def consumerStep (limit : Nat) (st : ConsumerState) (e : StreamEvent) :
    ConsumerState :=
  match e with
  | .existing arts count =>
    let st1 := { st with
      articles := arts,
      streamStatus := "Found " ++ toString count ++ " existing articles" }
    if limit ≤ count then { st1 with loading := false, streamStatus := "" }
    else st1
  | .status m => { st with streamStatus := m }
  | .newArticle a progress total =>
    { st with
      articles := st.articles ++ [a],
      streamStatus := "Processing article " ++ toString progress ++ "/" ++
        toString total ++ "..." }
  | .complete _ => { st with loading := false, streamStatus := "" }
  | .error _ => { st with loading := false, streamStatus := "" }

/-- entityText of the entity handling in ArticleCard ( typeof entity is
string ? entity : entity.text ); an object may lack the text field. -/
inductive CardEntity
  | str (s : String)
  | obj (text : Option String)
deriving DecidableEq

/-- The text read from a card entity. -/
def entityText : CardEntity → Option String
  | .str s => some s
  | .obj t => t

/-- The displayEntities filter predicate of ArticleCard: the text is
truthy and longer than 2 characters. -/
def entityDisplayOk (e : CardEntity) : Bool :=
  match entityText e with
  | some t => !t.isEmpty && decide (2 < t.length)
  | none => false

/-- displayEntities of src/src/components/ArticleCard.js : slice to the
first 6 entities, then keep those with truthy text longer than 2. -/
def displayEntities (entities : List CardEntity) : List CardEntity :=
  (entities.take 6).filter entityDisplayOk

/-- displayEmotions of src/src/components/ArticleCard.js : keep entries
with a truthy level other than none, then slice to the first 4. -/
def displayEmotions (emotions : List (String × String)) :
    List (String × String) :=
  (emotions.filter (fun p => !p.2.isEmpty && p.2 != "none")).take 4

/-! ## Helper lemmas -/

theorem charsStart_append_drop (s1 s2 : List Char) :
    ∀ l : List Char, charsStart l (s1 ++ s2) = true →
      charsStart (l.drop s1.length) s2 = true := by
  induction s1 with
  | nil => intro l h; simpa using h
  | cons a b ih =>
    intro l h
    cases l with
    | nil => simp [charsStart] at h
    | cons x y =>
      simp only [List.cons_append, charsStart, Bool.and_eq_true] at h
      simpa using ih y h.2

theorem charsInclude_exists (sub : List Char) :
    ∀ l : List Char, charsInclude l sub = true ↔
      ∃ n, charsStart (l.drop n) sub = true := by
  intro l
  induction l with
  | nil =>
    constructor
    · intro h
      refine ⟨0, ?_⟩
      cases sub with
      | nil => rfl
      | cons a b => simp [charsInclude] at h
    · rintro ⟨n, hn⟩
      cases sub with
      | nil => rfl
      | cons a b => simp [charsStart] at hn
  | cons x y ih =>
    constructor
    · intro h
      rcases Bool.or_eq_true_iff.1 h with h1 | h2
      · exact ⟨0, h1⟩
      · rcases ih.1 h2 with ⟨n, hn⟩
        exact ⟨n + 1, by simpa using hn⟩
    · rintro ⟨n, hn⟩
      cases n with
      | zero =>
        exact Bool.or_eq_true_iff.2 (Or.inl hn)
      | succ m =>
        exact Bool.or_eq_true_iff.2 (Or.inr (ih.2 ⟨m, by simpa using hn⟩))

theorem charsInclude_right (l s1 s2 : List Char)
    (h : charsInclude l (s1 ++ s2) = true) : charsInclude l s2 = true := by
  rcases (charsInclude_exists (s1 ++ s2) l).1 h with ⟨n, hn⟩
  have h2 := charsStart_append_drop s1 s2 (l.drop n) hn
  rw [List.drop_drop] at h2
  exact (charsInclude_exists s2 l).2 ⟨n + s1.length, h2⟩

theorem strIncludes_right (s a b c : String)
    (hsplit : a.toList ++ b.toList = c.toList)
    (h : strIncludes s c = true) : strIncludes s b = true := by
  unfold strIncludes at h ⊢
  rw [← hsplit] at h
  exact charsInclude_right _ _ _ h

/-! ## C3: idempotence of ingestion -/

theorem ingest_precheck_skips (cfg : FilterConfig) (bl : List BlacklistEntry)
    (now : Int) (ai : RawArticle → Option Bool)
    (enrich : RawArticle → Option Enrichment) (store : List SArticle)
    (topic : String) (lim : Nat)
    (providers : List (Option (List RawArticle)))
    (h : lim ≤ freshCount cfg now store topic) :
    ingest cfg bl now ai enrich store topic lim providers = ⟨store, 0, 0⟩ := by
  unfold ingest
  rw [if_pos h]

/-- C3: calling ingest when the store already holds at least the requested
number of fresh articles for the topic performs zero provider fetches (the
run returns the store untouched); consequently a second call right after a
first call that already satisfied the limit performs zero provider calls. -/
theorem ingest_no_refetch_when_satisfied (cfg : FilterConfig)
    (bl : List BlacklistEntry) (now : Int) (ai : RawArticle → Option Bool)
    (enrich : RawArticle → Option Enrichment) (store : List SArticle)
    (topic : String) (lim : Nat)
    (providers : List (Option (List RawArticle))) :
    (lim ≤ freshCount cfg now store topic →
      ingest cfg bl now ai enrich store topic lim providers = ⟨store, 0, 0⟩) ∧
    (∀ (providers2 : List (Option (List RawArticle)))
       (ai2 : RawArticle → Option Bool)
       (enrich2 : RawArticle → Option Enrichment),
      lim ≤ freshCount cfg now
        (ingest cfg bl now ai enrich store topic lim providers).store topic →
      (ingest cfg bl now ai2 enrich2
        (ingest cfg bl now ai enrich store topic lim providers).store
        topic lim providers2).providerCalls = 0) := by
  constructor
  · intro h
    exact ingest_precheck_skips cfg bl now ai enrich store topic lim providers h
  · intro providers2 ai2 enrich2 h
    rw [ingest_precheck_skips cfg bl now ai2 enrich2 _ topic lim providers2 h]

/-- Witness for C3 at a concrete store that already holds one fresh
matching article and limit 1. -/
theorem ingest_no_refetch_when_satisfied_witness :
    1 ≤ freshCount ⟨1, 10000, 7⟩ 0
      [⟨ "id1", "AI Breakthrough", "sum", "TechDaily", "u1", 0, "neutral",
        [], [], false⟩] "ai" ∧
    ingest ⟨1, 10000, 7⟩ [] 0 (fun _ => some true) (fun _ => none)
      [⟨ "id1", "AI Breakthrough", "sum", "TechDaily", "u1", 0, "neutral",
        [], [], false⟩] "ai" 1 [] =
      ⟨[⟨ "id1", "AI Breakthrough", "sum", "TechDaily", "u1", 0, "neutral",
        [], [], false⟩], 0, 0⟩ :=
  ⟨by decide,
    (ingest_no_refetch_when_satisfied ⟨1, 10000, 7⟩ [] 0 (fun _ => some true)
      (fun _ => none)
      [⟨ "id1", "AI Breakthrough", "sum", "TechDaily", "u1", 0, "neutral",
        [], [], false⟩] "ai" 1 []).1 (by decide)⟩

/-! ## C4: missing or unparseable publishedAt -/

/-- C4 counterexample: a raw article with missing publishedAt whose body is
too short is rejected by the earlier length rule, not with reason age, so
the claim as stated fails. -/
theorem filter_missing_date_length_first :
    (⟨ "x", "too short", "s", "u", none, none⟩ : RawArticle).publishedAt
      = none ∧
    contentFilter ⟨200, 10000, 7⟩ [] 0 (some true)
      ⟨ "x", "too short", "s", "u", none, none⟩ = .reject "length" ∧
    FilterDecision.reject "length" ≠ FilterDecision.reject "age" := by
  refine ⟨rfl, by decide, by decide⟩

/-- C4 amended: a raw article with missing or unparseable publishedAt whose
body word count is within the configured bounds is rejected with reason
age; in every case such an article is rejected (by the length rule or the
age rule), never passed through as unknown-age and never accepted. -/
theorem filter_missing_date_rejected (cfg : FilterConfig)
    (bl : List BlacklistEntry) (now : Int) (ai : Option Bool)
    (a : RawArticle) (hnone : a.publishedAt = none) :
    (cfg.minWords ≤ wordCount a.body ∧ wordCount a.body ≤ cfg.maxWords →
      contentFilter cfg bl now ai a = .reject "age") ∧
    (contentFilter cfg bl now ai a = .reject "length" ∨
      contentFilter cfg bl now ai a = .reject "age") := by
  by_cases hlen : wordCount a.body < cfg.minWords ∨ cfg.maxWords < wordCount a.body
  · constructor
    · intro hin
      omega
    · left
      unfold contentFilter
      rw [if_pos hlen]
  · constructor
    · intro _
      unfold contentFilter
      rw [if_neg hlen, hnone]
    · right
      unfold contentFilter
      rw [if_neg hlen, hnone]

/-- Witness for C4 amended at a concrete dateless article with an in-bounds
body. -/
theorem filter_missing_date_rejected_witness :
    (⟨ "x", "long enough body", "s", "u", none, none⟩ : RawArticle).publishedAt
      = none ∧
    (1 ≤ wordCount "long enough body" ∧ wordCount "long enough body" ≤ 10000) ∧
    contentFilter ⟨1, 10000, 7⟩ [] 0 (some true)
      ⟨ "x", "long enough body", "s", "u", none, none⟩ = .reject "age" :=
  ⟨rfl, by decide,
    (filter_missing_date_rejected ⟨1, 10000, 7⟩ [] 0 (some true)
      ⟨ "x", "long enough body", "s", "u", none, none⟩ rfl).1 (by decide)⟩

/-! ## Stream event helper lemmas -/

theorem newArticleEvents_nonterminal (l : List (Nat × SArticle)) (n : Nat) :
    ((l.map (fun p => StreamEvent.newArticle p.2 (p.1 + 1) n)).all
      (fun e => !isTerminal e)) = true := by
  induction l with
  | nil => rfl
  | cons h t ih => rw [List.map_cons, List.all_cons, ih]; rfl

theorem newArticleEvents_noComplete (l : List (Nat × SArticle)) (n : Nat) :
    ((l.map (fun p => StreamEvent.newArticle p.2 (p.1 + 1) n)).any
      isComplete) = false := by
  induction l with
  | nil => rfl
  | cons h t ih => rw [List.map_cons, List.any_cons, ih]; rfl

theorem newArticleEvents_noError (l : List (Nat × SArticle)) (n : Nat) :
    ((l.map (fun p => StreamEvent.newArticle p.2 (p.1 + 1) n)).any
      isError) = false := by
  induction l with
  | nil => rfl
  | cons h t ih => rw [List.map_cons, List.any_cons, ih]; rfl

theorem newArticleEvents_noExisting (l : List (Nat × SArticle)) (n : Nat) :
    ((l.map (fun p => StreamEvent.newArticle p.2 (p.1 + 1) n)).countP
      isExisting) = 0 := by
  induction l with
  | nil => rfl
  | cons h t ih => rw [List.map_cons, List.countP_cons, ih]; rfl

theorem dropLast_append_one (l : List StreamEvent) (b : StreamEvent) :
    (l ++ [b]).dropLast = l := by
  simp

theorem getLastQ_append_one (l : List StreamEvent) (b : StreamEvent) :
    (l ++ [b]).getLast? = some b := by
  induction l with
  | nil => rfl
  | cons h t ih => rw [List.cons_append, List.getLast?_cons, ih]; rfl

/-! ## C1: terminal events end the stream -/

/-- C1: in every streaming search run, all events before the last are
non-terminal, the last event is terminal, complete and error never both
occur, and the consumer state machine of loadArticlesStream marks loading
finished on receiving either terminal event. -/
theorem stream_terminal_events_final (ex : List SArticle) (lim : Nat)
    (res : Except String (List SArticle)) :
    (((searchStream ex lim res).events.dropLast).all
      (fun e => !isTerminal e)) = true ∧
    ((searchStream ex lim res).events.getLast?.map isTerminal = some true) ∧
    ¬(((searchStream ex lim res).events.any isComplete) = true ∧
      ((searchStream ex lim res).events.any isError) = true) ∧
    (∀ (st : ConsumerState) (e : StreamEvent), isTerminal e = true →
      (consumerStep lim st e).loading = false) := by
  refine ⟨?_, ?_, ?_, ?_⟩
  case _ =>
    unfold searchStream
    by_cases h : lim ≤ ex.length
    · simp [h, isTerminal]
    · cases res with
      | ok newArts =>
        rw [if_neg h]
        simp only []
        rw [dropLast_append_one, List.all_append, Bool.and_eq_true]
        exact ⟨rfl, newArticleEvents_nonterminal newArts.enum newArts.length⟩
      | error m =>
        by_cases hemp : ex.isEmpty <;> simp [h, hemp, isTerminal]
  case _ =>
    unfold searchStream
    by_cases h : lim ≤ ex.length
    · simp [h, isTerminal]
    · cases res with
      | ok newArts =>
        rw [if_neg h]
        simp only []
        rw [getLastQ_append_one]
        rfl
      | error m =>
        by_cases hemp : ex.isEmpty <;> simp [h, hemp, isTerminal]
  case _ =>
    unfold searchStream
    by_cases h : lim ≤ ex.length
    · simp [h, isComplete, isError]
    · cases res with
      | ok newArts =>
        rw [if_neg h]
        simp only []
        rintro ⟨_, herr⟩
        simp [List.any_append, isError,
          newArticleEvents_noError newArts.enum newArts.length] at herr
      | error m =>
        by_cases hemp : ex.isEmpty <;>
          simp [h, hemp, isComplete, isError]
  case _ =>
    intro st e he
    cases e with
    | existing arts count => simp [isTerminal] at he
    | status m => simp [isTerminal] at he
    | newArticle a p t => simp [isTerminal] at he
    | complete m => rfl
    | error m => rfl

/-- Witness for the consumer clause of C1 at a concrete state and a
concrete terminal event. -/
theorem stream_terminal_events_final_witness :
    isTerminal (StreamEvent.complete "done") = true ∧
    (consumerStep 5 ⟨[], true, "loading"⟩
      (StreamEvent.complete "done")).loading = false :=
  ⟨rfl, (stream_terminal_events_final [] 5 (.ok [])).2.2.2
    ⟨[], true, "loading"⟩ (StreamEvent.complete "done") rfl⟩

/-! ## C5: existing event first, short-circuit on sufficiency -/

/-- C5: every streaming search emits exactly one existing event and it
comes first; when the existing count already meets the limit the stream is
exactly the existing event followed by a terminal complete event and no
ingestion run is triggered. -/
theorem stream_existing_first_short_circuit (ex : List SArticle) (lim : Nat)
    (res : Except String (List SArticle)) :
    ((searchStream ex lim res).events.head?.map isExisting = some true) ∧
    ((searchStream ex lim res).events.countP isExisting = 1) ∧
    (lim ≤ ex.length →
      (searchStream ex lim res).events =
        [StreamEvent.existing ex ex.length,
         StreamEvent.complete "existing data sufficient"] ∧
      (searchStream ex lim res).ingestRuns = 0) := by
  refine ⟨?_, ?_, ?_⟩
  case _ =>
    unfold searchStream
    by_cases h : lim ≤ ex.length
    · simp [h, isExisting]
    · cases res with
      | ok newArts => simp [h, isExisting]
      | error m =>
        by_cases hemp : ex.isEmpty <;> simp [h, hemp, isExisting]
  case _ =>
    unfold searchStream
    by_cases h : lim ≤ ex.length
    · simp [h, isExisting, List.countP_cons]
    · cases res with
      | ok newArts =>
        rw [if_neg h]
        simp [isExisting, List.countP_cons, List.countP_append,
          newArticleEvents_noExisting]
      | error m =>
        by_cases hemp : ex.isEmpty <;>
          simp [h, hemp, isExisting, List.countP_cons]
  case _ =>
    intro h
    unfold searchStream
    rw [if_pos h]
    exact ⟨rfl, rfl⟩

/-- Witness for C5 at a one-article existing set that already meets the
limit. -/
theorem stream_existing_first_short_circuit_witness :
    1 ≤ ([⟨ "id1", "AI Breakthrough", "sum", "TechDaily", "u1", 0, "neutral",
      [], [], false⟩] : List SArticle).length ∧
    (searchStream [⟨ "id1", "AI Breakthrough", "sum", "TechDaily", "u1", 0,
      "neutral", [], [], false⟩] 1 (.ok [])).events =
      [StreamEvent.existing [⟨ "id1", "AI Breakthrough", "sum", "TechDaily",
        "u1", 0, "neutral", [], [], false⟩] 1,
       StreamEvent.complete "existing data sufficient"] ∧
    (searchStream [⟨ "id1", "AI Breakthrough", "sum", "TechDaily", "u1", 0,
      "neutral", [], [], false⟩] 1 (.ok [])).ingestRuns = 0 :=
  ⟨by decide,
    ((stream_existing_first_short_circuit [⟨ "id1", "AI Breakthrough", "sum",
      "TechDaily", "u1", 0, "neutral", [], [], false⟩] 1 (.ok [])).2.2
      (by decide)).1,
    ((stream_existing_first_short_circuit [⟨ "id1", "AI Breakthrough", "sum",
      "TechDaily", "u1", 0, "neutral", [], [], false⟩] 1 (.ok [])).2.2
      (by decide)).2⟩

/-! ## Mock data helper lemmas -/

theorem mem_mock_of_mem_getMock {a : FArticle} {q : String} {lim : Nat}
    (h : a ∈ getMockArticles q lim) : a ∈ mockArticles := by
  simp only [getMockArticles] at h
  have h2 := List.take_subset _ _ h
  by_cases hc : q ≠ "" ∧ strTrim q ≠ ""
  · rw [if_pos hc] at h2
    exact (List.mem_filter.1 h2).1
  · rw [if_neg hc] at h2
    exact h2

theorem mock_ids_marked :
    (mockArticles.all (fun a => strStarts a.id "mock-")) = true := by decide

/-! ## C2: empty result versus failure -/

/-- C2 counterexample: with the backend unreachable and an empty query the
search operation returns the six built-in mock articles, not an empty
list, so the claim as stated fails. -/
theorem search_mock_fallback_nonempty :
    networkFallbackCond "ECONNREFUSED" "connection refused" = true ∧
    (searchArticles (.fail "ECONNREFUSED" "connection refused") "" 6).length
      = 6 ∧
    searchArticles (.fail "ECONNREFUSED" "connection refused") "" 6 ≠ [] := by
  refine ⟨by decide, by decide, by decide⟩

/-- C2 amended: the search operation always returns a list and never
raises; a successful backend reply with zero qualifying results yields the
empty list; a failed backend request yields the empty list unless the
failure is the connection-refused/network-error case, in which case the
built-in mock list is returned, distinguishable because every mock id
starts with mock- while every successful result carries the real-data
marker. -/
theorem search_empty_vs_failure (q : String) (lim : Nat)
    (arts : List FArticle) (code message : String) :
    searchArticles (.ok []) q lim = [] ∧
    (networkFallbackCond code message = false →
      searchArticles (.fail code message) q lim = []) ∧
    ((searchArticles (.fail code message) q lim).all
      (fun a => strStarts a.id "mock-")) = true ∧
    ((searchArticles (.ok arts) q lim).all (fun a => a.isRealData)) = true := by
  refine ⟨rfl, ?_, ?_, ?_⟩
  · intro h
    simp [searchArticles, h]
  · by_cases hc : networkFallbackCond code message = true
    · simp only [searchArticles, hc, if_true]
      rw [List.all_eq_true]
      intro a ha
      have hm := mem_mock_of_mem_getMock ha
      exact List.all_eq_true.mp mock_ids_marked a hm
    · simp [searchArticles, hc]
  · rw [List.all_eq_true]
    intro x hx
    rcases List.mem_map.1 hx with ⟨b, _, rfl⟩
    rfl

/-- Witness for C2 amended at a failure that is not a network error. -/
theorem search_empty_vs_failure_witness :
    networkFallbackCond "500" "Server error" = false ∧
    searchArticles (.fail "500" "Server error") "x" 3 = [] :=
  ⟨by decide,
    (search_empty_vs_failure "x" 3 [] "500" "Server error").2.1 (by decide)⟩

/-! ## C8: mock fallback behaviour -/

/-- C8 counterexample: a tab-only query is non-empty, yet the mock
fallback returns all six mock articles and none of them contains the tab
character, so the containment clause of the claim fails as stated. -/
theorem mock_query_whitespace :
    ( "\t" : String) ≠ "" ∧
    (searchArticles (.fail "ECONNREFUSED" "net") "\t" 6).length = 6 ∧
    ((searchArticles (.fail "ECONNREFUSED" "net") "\t" 6).all
      (fun a => mockMatches "\t" a)) = false := by
  refine ⟨by decide, by decide, by decide⟩

/-- C8 amended: the mock list is returned on failure only when the
connection-refused/network-error condition holds, in which case the result
is exactly getMockArticles; at most limit mock articles are returned; and
for every query whose whitespace-trimmed form is non-empty, each returned
mock article contains the query case-insensitively in headline, summary,
or an entity text. -/
theorem mock_fallback_only_when_unreachable (code message q : String)
    (lim : Nat) :
    (searchArticles (.fail code message) q lim ≠ [] →
      networkFallbackCond code message = true) ∧
    (networkFallbackCond code message = true →
      searchArticles (.fail code message) q lim = getMockArticles q lim) ∧
    (getMockArticles q lim).length ≤ lim ∧
    (strTrim q ≠ "" →
      ((getMockArticles q lim).all (fun a => mockMatches q a)) = true) := by
  refine ⟨?_, ?_, ?_, ?_⟩
  · intro hne
    by_cases hc : networkFallbackCond code message = true
    · exact hc
    · exact absurd (by simp [searchArticles, hc]) hne
  · intro hc
    simp [searchArticles, hc]
  · simp only [getMockArticles]
    exact List.length_take_le _ _
  · intro ht
    have hq : q ≠ "" := by
      intro he
      rw [he] at ht
      exact ht (by decide)
    simp only [getMockArticles]
    rw [if_pos ⟨hq, ht⟩, List.all_eq_true]
    intro a ha
    exact List.of_mem_filter (List.take_subset _ _ ha)

/-- Witness for C8 amended at a network failure with a real query. -/
theorem mock_fallback_only_when_unreachable_witness :
    networkFallbackCond "ECONNREFUSED" "boom" = true ∧
    strTrim "ai" ≠ "" ∧
    searchArticles (.fail "ECONNREFUSED" "boom") "ai" 2 =
      getMockArticles "ai" 2 ∧
    ((getMockArticles "ai" 2).all (fun a => mockMatches "ai" a)) = true :=
  ⟨by decide, by decide,
    (mock_fallback_only_when_unreachable "ECONNREFUSED" "boom" "ai" 2).2.1
      (by decide),
    (mock_fallback_only_when_unreachable "ECONNREFUSED" "boom" "ai" 2).2.2.2
      (by decide)⟩

/-! ## C6: sentiment label normalization -/

/-- C6 counterexample: the label unpositive is outside the 5-value
enumeration yet maps to Positive (substring matching), not to Neutral, so
the claim as stated fails. -/
theorem sentiment_label_substring_leak :
    getSentimentLabel (some "unpositive") = "Positive" ∧
    ¬( "unpositive" ∈
      [ "very_positive", "positive", "neutral", "negative", "very_negative" ]) ∧
    getSentimentLabel (some "unpositive") ≠ "Neutral" := by
  refine ⟨by decide, by decide, by decide⟩

/-- C6 amended: the displayed sentiment label is always one of the five
values; a missing label maps to Neutral; and labels are bucketed by
case-insensitive substring matching, so a label containing neither
positive nor negative (after lowering) maps to Neutral. -/
theorem sentiment_label_five_values (s : Option String) :
    getSentimentLabel s ∈
      [ "Very Positive", "Positive", "Neutral", "Negative", "Very Negative" ] ∧
    getSentimentLabel none = "Neutral" ∧
    (∀ v : String, strIncludes (strToLower v) "positive" = false →
      strIncludes (strToLower v) "negative" = false →
      getSentimentLabel (some v) = "Neutral") := by
  refine ⟨?_, rfl, ?_⟩
  · cases s with
    | none => simp [getSentimentLabel]
    | some v =>
      simp only [getSentimentLabel]
      split_ifs <;> simp
  · intro v h1 h2
    have hvp : strIncludes (strToLower v) "very_positive" = false := by
      cases hb : strIncludes (strToLower v) "very_positive" with
      | false => rfl
      | true =>
        have h3 := strIncludes_right (strToLower v) "very_" "positive"
          "very_positive" (by decide) hb
        exact absurd h3 (by simp [h1])
    have hvn : strIncludes (strToLower v) "very_negative" = false := by
      cases hb : strIncludes (strToLower v) "very_negative" with
      | false => rfl
      | true =>
        have h3 := strIncludes_right (strToLower v) "very_" "negative"
          "very_negative" (by decide) hb
        exact absurd h3 (by simp [h2])
    by_cases hv : v = ""
    · simp [getSentimentLabel, hv]
    · simp [getSentimentLabel, hv, hvp, h1, hvn, h2]

/-- Witness for C6 amended at a label containing neither keyword. -/
theorem sentiment_label_five_values_witness :
    strIncludes (strToLower "ok news") "positive" = false ∧
    strIncludes (strToLower "ok news") "negative" = false ∧
    getSentimentLabel (some "ok news") = "Neutral" :=
  ⟨by decide, by decide,
    (sentiment_label_five_values none).2.2 "ok news" (by decide) (by decide)⟩

/-! ## C7: sentiment filtering is a pure narrowing -/

/-- C7: changing the sentiment filter leaves the loaded article list and
the fetch count untouched, does not change the backend request key, and
the sentiment filtering of a loaded list is a sublist of that list. -/
theorem sentiment_filter_pure_narrowing (st : HomeState) (filter : String) :
    (handleSentimentFilterChange st filter).articles = st.articles ∧
    (handleSentimentFilterChange st filter).fetchCount = st.fetchCount ∧
    loadArticlesRequest (handleSentimentFilterChange st filter) =
      loadArticlesRequest st ∧
    (∀ (fv : String) (l : List FArticle),
      (filterArticlesBySentiment fv l).Sublist l) := by
  refine ⟨rfl, rfl, rfl, ?_⟩
  intro fv l
  unfold filterArticlesBySentiment
  split_ifs with h
  · exact List.Sublist.refl l
  · exact List.filter_sublist l

/-! ## C9: stats buckets partition the total -/

theorem bucket_trichotomy (s : Option String) :
    getSentimentBucket s = "positive" ∨ getSentimentBucket s = "neutral" ∨
      getSentimentBucket s = "negative" := by
  cases s with
  | none => right; left; rfl
  | some v =>
    simp only [getSentimentBucket]
    split_ifs <;> simp

theorem bumpCount_positive (acc : SentimentCounts) :
    bumpCount acc "positive" = { acc with positive := acc.positive + 1 } := rfl

theorem bumpCount_neutral (acc : SentimentCounts) :
    bumpCount acc "neutral" = { acc with neutral := acc.neutral + 1 } := rfl

theorem bumpCount_negative (acc : SentimentCounts) :
    bumpCount acc "negative" = { acc with negative := acc.negative + 1 } := rfl

theorem bump_fold_sum (l : List FArticle) :
    ∀ acc : SentimentCounts,
      (l.foldl (fun acc a =>
        bumpCount acc (getSentimentBucket (articleSentiment a))) acc).positive +
      (l.foldl (fun acc a =>
        bumpCount acc (getSentimentBucket (articleSentiment a))) acc).neutral +
      (l.foldl (fun acc a =>
        bumpCount acc (getSentimentBucket (articleSentiment a))) acc).negative =
      acc.positive + acc.neutral + acc.negative + l.length := by
  induction l with
  | nil => intro acc; simp
  | cons a t ih =>
    intro acc
    rw [List.foldl_cons]
    rcases bucket_trichotomy (articleSentiment a) with h | h | h <;>
      rw [h] <;>
      first
      | rw [bumpCount_positive, ih]
      | rw [bumpCount_neutral, ih]
      | rw [bumpCount_negative, ih]
    all_goals simp only [List.length_cons]
    all_goals omega

/-- C9: after a statistics recomputation over the displayed articles, the
total equals the sum of the positive, neutral and negative bucket counts:
each article lands in exactly one bucket. -/
theorem stats_total_partition (sentimentFilter : String)
    (articles : List FArticle) :
    (calculateStats sentimentFilter articles).total =
      (calculateStats sentimentFilter articles).positive +
      (calculateStats sentimentFilter articles).neutral +
      (calculateStats sentimentFilter articles).negative := by
  have h := bump_fold_sum (filterArticlesBySentiment sentimentFilter articles)
    ⟨0, 0, 0⟩
  simp only [calculateStats]
  simp only [Nat.zero_add] at h
  omega

/-! ## C10: card display limits -/

/-- C10: every rendered card shows at most 6 entity tags, each with text
longer than 2 characters, and at most 4 emotions, each with a level other
than none. -/
theorem card_display_limits (entities : List CardEntity)
    (emotions : List (String × String)) :
    (displayEntities entities).length ≤ 6 ∧
    ((displayEntities entities).all
      (fun e => decide (2 < ((entityText e).getD "").length))) = true ∧
    (displayEmotions emotions).length ≤ 4 ∧
    ((displayEmotions emotions).all (fun p => p.2 != "none")) = true := by
  refine ⟨?_, ?_, ?_, ?_⟩
  · unfold displayEntities
    exact le_trans (List.length_filter_le _ _) (List.length_take_le _ _)
  · unfold displayEntities
    rw [List.all_eq_true]
    intro e he
    have hp := List.of_mem_filter he
    unfold entityDisplayOk at hp
    cases hx : entityText e with
    | none => rw [hx] at hp; exact absurd hp (by simp)
    | some t =>
      rw [hx] at hp
      simp only [Bool.and_eq_true] at hp
      simpa using hp.2
  · unfold displayEmotions
    exact List.length_take_le _ _
  · unfold displayEmotions
    rw [List.all_eq_true]
    intro p hp
    have h3 := List.of_mem_filter (List.take_subset _ _ hp)
    simp only [Bool.and_eq_true] at h3
    exact h3.2

end NewsInsight
